import Mathlib

/-!
Verification of the Gaming API backend (`src/main.py`, `src/schemas.py`)
against its natural-language specification.

The repository is a FastAPI application over a MongoDB-like document store.
We shallowly embed the route handlers of `src/main.py` as pure Lean
functions over an explicit store state.  Python dicts become association
lists (`Doc`), BSON values become the inductive `Value`, and the outcome of
a request becomes `Outcome`: a successful body, a raised `HTTPException`
(FastAPI turns it into a response with that status code), or an uncaught
Python exception (FastAPI's error middleware turns it into HTTP 500).

The module `database.py` that `main.py` imports (`db`, `create_document`,
`get_documents`) is not part of the sources we were given; those operations
are modelled from the specification (marked `Modelled from the spec:`).
The pymongo cursor operations `find`/`sort`/`limit`/`find_one`/
`count_documents` are external-library collaborators and are embedded with
their documented semantics (in particular, `limit(0)` means "no limit").
-/

/-- A BSON-like value stored in a document.  `vOid s` is a native ObjectId
whose canonical 24-character lowercase hex rendering is `s`. -/
inductive Value where
  | vStr (s : String)
  | vInt (n : Int)
  | vOid (s : String)
  | vNull
deriving DecidableEq, Repr

/-- A document: a Python dict as an ordered association list with unique
keys (we never rely on uniqueness; lookups take the first hit, as Python
dict semantics guarantee for well-formed dicts). -/
abbrev Doc := List (String × Value)

/-- `d.get(k)` returning `None` as `Option`: first value under key `k`. -/
def getKey? (d : Doc) (k : String) : Option Value :=
  match d with
  | [] => none
  | (k', v) :: rest => if k' = k then some v else getKey? rest k

/-- `doc.get(k)` with Python's `None` default. -/
def getVal (d : Doc) (k : String) : Value :=
  match getKey? d k with
  | some v => v
  | none => Value.vNull

/-- Python dict assignment `d[k] = v`: replace in place when the key is
present, append otherwise. -/
def setKey (d : Doc) (k : String) (v : Value) : Doc :=
  match d with
  | [] => [(k, v)]
  | (k', v') :: rest => if k' = k then (k, v) :: rest else (k', v') :: setKey rest k v

/-- Python `str()` on the values we store: `str(ObjectId(...))` is the hex
string, `str(None)` is `"None"`. -/
def pyStr : Value → String
  | Value.vStr s => s
  | Value.vInt n => toString n
  | Value.vOid s => s
  | Value.vNull => "None"

/-- `serialize_doc` applied to a non-null dict (the body of the function
after the falsy check): `doc["_id"] = str(doc.get("_id"))`. -/
def serializeD (d : Doc) : Doc :=
  if d = [] then d else setKey d "_id" (Value.vStr (pyStr (getVal d "_id")))

/-- `serialize_doc` from `src/main.py`: `if not doc: return doc` (both
`None` and the empty dict are falsy), else render `_id` in place. -/
def serialize_doc : Option Doc → Option Doc
  | none => none
  | some d => some (serializeD d)

/-- A hexadecimal digit (both cases), as accepted by `bytes.fromhex`. -/
def isHexChar (c : Char) : Bool :=
  c.isDigit || ("a" ≤ c.toString && c.toString ≤ "f") || ("A" ≤ c.toString && c.toString ≤ "F")

/-- `bson.ObjectId.is_valid` on a string: exactly 24 hex characters. -/
def objectId_is_valid (s : String) : Bool :=
  s.length == 24 && s.data.all isHexChar

/-- `PyObjectId.validate` from `src/main.py` on a string input: return the
parsed native id, or raise `ValueError("Invalid ObjectId")`.  `ObjectId`
normalises the hex rendering to lower case. -/
def pyObjectId_validate (v : String) : Except String Value :=
  if objectId_is_valid v then Except.ok (Value.vOid v.toLower)
  else Except.error "Invalid ObjectId"

/-- 24-character zero-padded lowercase hex rendering of a counter, the
model of a freshly generated native ObjectId's string form. -/
def oidHex (n : Nat) : String :=
  let ds := Nat.toDigits 16 n
  String.mk (List.replicate (24 - ds.length) '0' ++ ds)

/-- The document store's state: one list of documents per collection
(`game`, `user`, `leaderboardentry`) plus a counter for generating fresh
native identifiers. -/
structure DB where
  game : List Doc
  user : List Doc
  leaderboardentry : List Doc
  nextId : Nat
deriving DecidableEq, Repr

/-- Mongo equality filter: every `(k, v)` of the filter must be present in
the document with exactly that value. -/
def matchesFilter (filt : Doc) (d : Doc) : Bool :=
  filt.all fun kv => decide (getKey? d kv.1 = some kv.2)

/-- pymongo `collection.find_one(filt)`: the first matching document. -/
def find_one (l : List Doc) (filt : Doc) : Option Doc :=
  match l with
  | [] => none
  | d :: rest => if matchesFilter filt d then some d else find_one rest filt

/-- Modelled from the spec: `create_document` from the absent store-client
module `database.py` inserts the given data into a collection, letting the
store generate a fresh native identifier, and returns the identifier's
string rendering.  Here we materialise the stored document (data with
`_id` set) and the returned string; callers append the document to the
right collection and bump the freshness counter. -/
def create_document (data : Doc) (nid : Nat) : Doc × String :=
  (setKey data "_id" (Value.vOid (oidHex nid)), oidHex nid)

/-- Modelled from the spec: `get_documents` from the absent store-client
module `database.py` returns the documents of a collection matching the
given filter, in store order. -/
def get_documents (l : List Doc) (filt : Doc) : List Doc :=
  l.filter (matchesFilter filt)

/-- The outcome of one request handler: a 200 body, a raised
`HTTPException(status, detail)`, or an uncaught Python exception (which
FastAPI's error middleware reports as HTTP 500). -/
inductive Outcome (α : Type) where
  | ok (body : α)
  | httpError (status : Nat) (detail : String)
  | raised (msg : String)
deriving DecidableEq, Repr

/-- The HTTP status code FastAPI sends for an outcome. -/
def statusOf {α : Type} : Outcome α → Nat
  | Outcome.ok _ => 200
  | Outcome.httpError s _ => s
  | Outcome.raised _ => 500

/-- Python truthiness of an optional string: `None` and `""` are falsy. -/
def truthyStr : Option String → Bool
  | none => false
  | some s => !(s = "")

/-- Parsed body of `POST /api/users` (`CreateUserRequest` in
`src/main.py`): a plain string username and an optional plain string
avatar URL — no length or URL-format constraints. -/
structure CreateUserRequest where
  username : String
  avatar_url : Option String
deriving DecidableEq, Repr

/-- Parsed body of `POST /api/leaderboard/{game_id}`
(`SubmitScoreRequest` in `src/main.py`). -/
structure SubmitScoreRequest where
  user_id : String
  username : String
  score : Int
deriving DecidableEq, Repr

/-- Parsed and validated body of `POST /api/games` (`Game` in
`src/schemas.py`), after pydantic validation has accepted it. -/
structure Game where
  title : String
  description : String
  category : String
  thumbnail : Option String
  plays : Int
deriving DecidableEq, Repr

/-- An optional string as a stored value (`None` becomes BSON null). -/
def optVal : Option String → Value
  | none => Value.vNull
  | some s => Value.vStr s

/-- The dict a validated `Game` body is stored as. -/
def gameToDoc (g : Game) : Doc :=
  [("title", Value.vStr g.title), ("description", Value.vStr g.description),
   ("category", Value.vStr g.category), ("thumbnail", optVal g.thumbnail),
   ("plays", Value.vInt g.plays)]

/-- `payload.model_dump()` for `CreateUserRequest`. -/
def createUserData (p : CreateUserRequest) : Doc :=
  [("username", Value.vStr p.username), ("avatar_url", optVal p.avatar_url)]

/-- `GET /api/games` (`list_games` in `src/main.py`).  `dbp` is whether
the module-level store handle `db` is present (not `None`).  Note
`{"category": category} if category else {}`: both an absent and an
empty-string category produce the empty filter. -/
def list_games (dbp : Bool) (st : DB) (category : Option String) :
    Outcome (List Doc) × DB :=
  if dbp = false then (Outcome.httpError 500 "Database not configured", st)
  else
    let filt : Doc :=
      match category with
      | some c => if c = "" then [] else [("category", Value.vStr c)]
      | none => []
    (Outcome.ok ((get_documents st.game filt).map serializeD), st)

/-- `POST /api/games` (`create_game` in `src/main.py`). -/
def create_game (dbp : Bool) (st : DB) (g : Game) : Outcome String × DB :=
  if dbp = false then (Outcome.httpError 500 "Database not configured", st)
  else
    let (d, i) := create_document (gameToDoc g) st.nextId
    (Outcome.ok i, { st with game := st.game ++ [d], nextId := st.nextId + 1 })

/-- `POST /api/users` (`create_user` in `src/main.py`), on the parsed
body: look up by username; if found, return it serialized; else insert and
re-fetch by the returned id. -/
def create_user (dbp : Bool) (st : DB) (p : CreateUserRequest) :
    Outcome (Option Doc) × DB :=
  if dbp = false then (Outcome.httpError 500 "Database not configured", st)
  else
    match find_one st.user [("username", Value.vStr p.username)] with
    | some existing => (Outcome.ok (serialize_doc (some existing)), st)
    | none =>
      let (d, i) := create_document (createUserData p) st.nextId
      let st' : DB := { st with user := st.user ++ [d], nextId := st.nextId + 1 }
      -- `ObjectId(_id)` re-parses the id string returned by the store;
      -- on the store's own canonical rendering this roundtrips exactly.
      let created := find_one st'.user [("_id", Value.vOid i)]
      (Outcome.ok (serialize_doc created), st')

/-- `GET /api/users/{user_id}` (`get_user` in `src/main.py`).  The handler
calls `PyObjectId.validate(user_id)` directly: on a malformed id the
`ValueError` it raises is not caught anywhere, so it propagates out of the
handler (`Outcome.raised`). -/
def get_user (dbp : Bool) (st : DB) (user_id : String) :
    Outcome (Option Doc) × DB :=
  if dbp = false then (Outcome.httpError 500 "Database not configured", st)
  else
    match pyObjectId_validate user_id with
    | Except.error m => (Outcome.raised m, st)
    | Except.ok oid =>
      match find_one st.user [("_id", oid)] with
      | none => (Outcome.httpError 404 "User not found", st)
      | some u => (Outcome.ok (serialize_doc (some u)), st)

/-- The `"score"` field of a document as the integer Mongo sorts by (api
writes always store an integer score). -/
def scoreOf (d : Doc) : Int :=
  match getKey? d "score" with
  | some (Value.vInt n) => n
  | _ => 0

/-- Descending-score ordering used by `.sort("score", -1)`. -/
def scoreGE (a b : Doc) : Prop := scoreOf b ≤ scoreOf a

instance : DecidableRel scoreGE := fun a b => inferInstanceAs (Decidable (scoreOf b ≤ scoreOf a))

instance : IsTotal Doc scoreGE := ⟨fun a b => le_total (scoreOf b) (scoreOf a)⟩

instance : IsTrans Doc scoreGE := ⟨fun _ _ _ h1 h2 => le_trans h2 h1⟩

/-- pymongo `cursor.limit(n)`: a limit of 0 is equivalent to no limit; a
negative limit behaves like its absolute value (with cursor closing, which
has no effect on the returned batch). -/
def applyLimit (n : Int) (l : List Doc) : List Doc :=
  if n = 0 then l else l.take n.natAbs

/-- `GET /api/leaderboard/{game_id}` (`get_leaderboard` in
`src/main.py`): filter by `game_id`, sort by score descending, cap at
`limit` (default 10), serialize element-wise. -/
def get_leaderboard (dbp : Bool) (st : DB) (game_id : String) (limit : Int) :
    Outcome (List Doc) × DB :=
  if dbp = false then (Outcome.httpError 500 "Database not configured", st)
  else
    let entries :=
      applyLimit limit
        (List.insertionSort scoreGE
          (st.leaderboardentry.filter (matchesFilter [("game_id", Value.vStr game_id)])))
    (Outcome.ok (entries.map serializeD), st)

/-- `POST /api/leaderboard/{game_id}` (`submit_score` in `src/main.py`):
reject a negative score with 400, else insert the four-field document. -/
def submit_score (dbp : Bool) (st : DB) (game_id : String) (p : SubmitScoreRequest) :
    Outcome String × DB :=
  if dbp = false then (Outcome.httpError 500 "Database not configured", st)
  else if p.score < 0 then (Outcome.httpError 400 "Score must be non-negative", st)
  else
    let data : Doc :=
      [("game_id", Value.vStr game_id), ("user_id", Value.vStr p.user_id),
       ("username", Value.vStr p.username), ("score", Value.vInt p.score)]
    let (d, i) := create_document data st.nextId
    (Outcome.ok i, { st with leaderboardentry := st.leaderboardentry ++ [d], nextId := st.nextId + 1 })

/-- The four fixed sample games of `seed_games` in `src/main.py`. -/
def sampleGames : List Doc :=
  [[("title", Value.vStr "Neon Blocks"),
    ("description", Value.vStr "Stack and align glowing blocks in this chill puzzle."),
    ("category", Value.vStr "Puzzle"), ("thumbnail", Value.vNull), ("plays", Value.vInt 0)],
   [("title", Value.vStr "Cyber Runner"),
    ("description", Value.vStr "Dash through a synth city, dodge obstacles, collect cores."),
    ("category", Value.vStr "Adventure"), ("thumbnail", Value.vNull), ("plays", Value.vInt 0)],
   [("title", Value.vStr "Pulse Shooter"),
    ("description", Value.vStr "Arcade action with rhythmic enemy waves and power-ups."),
    ("category", Value.vStr "Action"), ("thumbnail", Value.vNull), ("plays", Value.vInt 0)],
   [("title", Value.vStr "ABC Quest"),
    ("description", Value.vStr "Learn letters and sounds with friendly characters."),
    ("category", Value.vStr "Kids Learning"), ("thumbnail", Value.vNull), ("plays", Value.vInt 0)]]

/-- The loop of `seed_games`: insert each sample in order, collecting the
returned id strings. -/
def seedInsert : List Doc → DB → List String × DB
  | [], st => ([], st)
  | s :: rest, st =>
    let (d, i) := create_document s st.nextId
    let st' : DB := { st with game := st.game ++ [d], nextId := st.nextId + 1 }
    let (ids, st'') := seedInsert rest st'
    (i :: ids, st'')

/-- Body of the `POST /api/seed` response: either the already-seeded
message or the list of inserted ids. -/
inductive SeedBody where
  | alreadySeeded
  | inserted (ids : List String)
deriving DecidableEq, Repr

/-- `POST /api/seed` (`seed_games` in `src/main.py`):
`db["game"].count_documents({}) > 0` guards the batch insert. -/
def seed_games (dbp : Bool) (st : DB) : Outcome SeedBody × DB :=
  if dbp = false then (Outcome.httpError 500 "Database not configured", st)
  else if st.game.length > 0 then (Outcome.ok SeedBody.alreadySeeded, st)
  else
    let (ids, st') := seedInsert sampleGames st
    (Outcome.ok (SeedBody.inserted ids), st')

/-- The `GET /test` response dict of `src/main.py`. -/
structure TestResponse where
  backend : String
  database : String
  database_url : Option String
  database_name : Option String
  connection_status : String
  collections : List String
deriving DecidableEq, Repr

/-- The initial response dict built at the top of `test_database`. -/
def testResponseInit : TestResponse :=
  { backend := "✅ Running", database := "❌ Not Available", database_url := none,
    database_name := none, connection_status := "Not Connected", collections := [] }

/-- `GET /test` (`test_database` in `src/main.py`).  `dbUrl`/`dbName` are
the values of `os.getenv("DATABASE_URL")`/`os.getenv("DATABASE_NAME")`,
and `lcn` is the outcome of the one store-touching call,
`db.list_collection_names()` (`Except.error e` when it raises, carrying
`str(e)`).  Every statement outside that call is total, so the function
always returns a 200 body; the inner `except` renders the error truncated
to 50 characters. -/
def test_database (dbp : Bool) (dbUrl dbName : Option String)
    (lcn : Except String (List String)) : Outcome TestResponse :=
  Outcome.ok
    (if dbp = false then { testResponseInit with database := "⚠️  Available but not initialized" }
     else
       let base : TestResponse :=
         { testResponseInit with
           database := "✅ Available",
           database_url := some (if truthyStr dbUrl then "✅ Set" else "❌ Not Set"),
           database_name := some (match dbName with
             | some s => if s = "" then "❌ Not Set" else s
             | none => "❌ Not Set"),
           connection_status := "Connected" }
       match lcn with
       | Except.ok cols =>
         { base with collections := cols.take 10, database := "✅ Connected & Working" }
       | Except.error e =>
         { base with database := "⚠️  Connected but Error: " ++ e.take 50 })

/-- pydantic validation of the raw JSON body against `CreateUserRequest`:
`username` must be present and a string; `avatar_url`, when present and
not null, must be a string.  Failure is FastAPI's 422. -/
def parseCreateUserRequest (body : Doc) : Except String CreateUserRequest :=
  match getKey? body "username" with
  | some (Value.vStr u) =>
    match getKey? body "avatar_url" with
    | none => Except.ok { username := u, avatar_url := none }
    | some Value.vNull => Except.ok { username := u, avatar_url := none }
    | some (Value.vStr a) => Except.ok { username := u, avatar_url := some a }
    | some _ => Except.error "avatar_url: Input should be a valid string"
  | _ => Except.error "username: Input should be a valid string"

/-- The full `POST /api/users` endpoint: FastAPI first validates the raw
body against `CreateUserRequest` (422 on failure), then runs the handler. -/
def post_users (dbp : Bool) (st : DB) (body : Doc) : Outcome (Option Doc) × DB :=
  match parseCreateUserRequest body with
  | Except.error m => (Outcome.httpError 422 m, st)
  | Except.ok p => create_user dbp st p

/-- Abstraction of pydantic's `HttpUrl` well-formedness check (external
library): an http(s) URL with a scheme, a non-empty host and a bounded
length.  Claims are settled only on inputs where this agrees with
pydantic (e.g. strings with no scheme at all). -/
def isHttpUrl (s : String) : Bool :=
  ((s.startsWith "http://" && s.length > 7) || (s.startsWith "https://" && s.length > 8))
    && s.length ≤ 2083

/-- The `User` schema constraints of `src/schemas.py`: `username` 2–30
characters, `avatar_url` (when present) a well-formed URL. -/
def userSchemaOk (username : String) (avatar_url : Option String) : Bool :=
  2 ≤ username.length && username.length ≤ 30 &&
    (match avatar_url with
     | none => true
     | some a => isHttpUrl a)

/-- A convenient empty store state. -/
def emptyDB : DB := { game := [], user := [], leaderboardentry := [], nextId := 0 }

/-- Whether a document's `"score"` field is present and an integer (the
shape every document written through the API has), so that the embedded
sort key agrees with the store's sort on `"score"`. -/
def hasIntScore (d : Doc) : Bool :=
  match getKey? d "score" with
  | some (Value.vInt _) => true
  | _ => false

/-- The list of documents carried by a successful list outcome. -/
def outDocs {α : Type} : Outcome (List α) → List α
  | Outcome.ok l => l
  | _ => []

/-- The `database` field of a `GET /test` response outcome. -/
def databaseField : Outcome TestResponse → String
  | Outcome.ok r => r.database
  | _ => ""

/-! ### Helper lemmas about documents and store primitives -/

theorem getKey?_setKey_self (d : Doc) (k : String) (v : Value) :
    getKey? (setKey d k v) k = some v := by
  induction d with
  | nil => simp [setKey, getKey?]
  | cons kv rest ih =>
    by_cases h : kv.1 = k
    · simp [setKey, h, getKey?]
    · simp [setKey, h, getKey?, ih]

theorem getKey?_setKey_ne (d : Doc) (k k' : String) (v : Value) (h : k' ≠ k) :
    getKey? (setKey d k v) k' = getKey? d k' := by
  induction d with
  | nil => simp [setKey, getKey?, if_neg (Ne.symm h)]
  | cons kv rest ih =>
    obtain ⟨k₀, v₀⟩ := kv
    by_cases hk : k₀ = k
    · subst hk
      simp [setKey, getKey?, if_neg (Ne.symm h)]
    · by_cases hk' : k₀ = k'
      · simp [setKey, hk, getKey?, hk', if_neg h]
      · simp [setKey, hk, getKey?, hk', ih]

theorem getKey?_serializeD_ne (d : Doc) (k : String) (h : k ≠ "_id") :
    getKey? (serializeD d) k = getKey? d k := by
  by_cases hd : d = []
  · simp [serializeD, hd]
  · simp [serializeD, hd, getKey?_setKey_ne _ _ _ _ h]

theorem scoreOf_serializeD (d : Doc) : scoreOf (serializeD d) = scoreOf d := by
  have h : getKey? (serializeD d) "score" = getKey? d "score" :=
    getKey?_serializeD_ne d "score" (by decide)
  simp [scoreOf, h]

theorem find_one_eq_none_iff (l : List Doc) (f : Doc) :
    find_one l f = none ↔ ∀ d ∈ l, matchesFilter f d = false := by
  induction l with
  | nil => simp [find_one]
  | cons d rest ih =>
    by_cases h : matchesFilter f d
    · simp [find_one, h]
    · have hf : matchesFilter f d = false := by simpa using h
      simp [find_one, h, ih, List.forall_mem_cons, hf]

theorem find_one_append_of_none (l₁ l₂ : List Doc) (f : Doc)
    (h : find_one l₁ f = none) :
    find_one (l₁ ++ l₂) f = find_one l₂ f := by
  induction l₁ with
  | nil => simp
  | cons d rest ih =>
    by_cases hd : matchesFilter f d
    · simp [find_one, hd] at h
    · simp [find_one, hd] at h ⊢
      exact ih h

theorem matchesFilter_singleton (k : String) (v : Value) (d : Doc) :
    matchesFilter [(k, v)] d = true ↔ getKey? d k = some v := by
  simp [matchesFilter]

/-! ### Claim theorems -/

/-- C1 (evaluation at the failing input): `GET /api/users/not-an-id` with
the store handle present.  `PyObjectId.validate` raises
`ValueError("Invalid ObjectId")`, no handler catches it, and FastAPI's
error middleware surfaces an uncaught exception as HTTP 500 — not the 400
the claim states, and not 200. -/
theorem get_user_invalid_id_gives_500 :
    get_user true emptyDB "not-an-id" = (Outcome.raised "Invalid ObjectId", emptyDB) ∧
    statusOf (get_user true emptyDB "not-an-id").1 = 500 ∧
    statusOf (get_user true emptyDB "not-an-id").1 ≠ 400 ∧
    statusOf (get_user true emptyDB "not-an-id").1 ≠ 200 := by
  decide

/-- C7: for a non-empty document, `serialize_doc` replaces the value under
`"_id"` with its string rendering and leaves the value under every other
key unchanged; a null/absent (or empty) document serializes to itself. -/
theorem serialize_doc_frame (d : Doc) (h : d ≠ []) :
    getKey? (serializeD d) "_id" = some (Value.vStr (pyStr (getVal d "_id"))) ∧
    (∀ k, k ≠ "_id" → getKey? (serializeD d) k = getKey? d k) ∧
    serialize_doc (some d) = some (serializeD d) ∧
    serialize_doc none = none ∧
    serialize_doc (some []) = some [] := by
  refine ⟨?_, ?_, rfl, rfl, rfl⟩
  · simp [serializeD, h, getKey?_setKey_self]
  · intro k hk
    exact getKey?_serializeD_ne d k hk

/-- A concrete stored user document used as a witness input. -/
def sampleUserDoc : Doc :=
  [("_id", Value.vOid "507f1f77bcf86cd799439011"), ("username", Value.vStr "Ann")]

/-- Witness for C7 at a concrete two-field document. -/
theorem serialize_doc_frame_witness :
    getKey? (serializeD sampleUserDoc) "_id"
      = some (Value.vStr (pyStr (getVal sampleUserDoc "_id"))) ∧
    getKey? (serializeD sampleUserDoc) "username" = getKey? sampleUserDoc "username" := by
  have h := serialize_doc_frame sampleUserDoc (by decide)
  exact ⟨h.1, h.2.1 "username" (by decide)⟩

/-- C8: with the store handle absent (`db is None`), every data-touching
route answers HTTP 500 "Database not configured" and leaves the store
state untouched (no store operation is performed). -/
theorem routes_fail_fast_when_db_absent (st : DB) (category : Option String)
    (g : Game) (p : CreateUserRequest) (uid gid : String) (lim : Int)
    (s : SubmitScoreRequest) :
    list_games false st category = (Outcome.httpError 500 "Database not configured", st) ∧
    create_game false st g = (Outcome.httpError 500 "Database not configured", st) ∧
    create_user false st p = (Outcome.httpError 500 "Database not configured", st) ∧
    get_user false st uid = (Outcome.httpError 500 "Database not configured", st) ∧
    get_leaderboard false st gid lim = (Outcome.httpError 500 "Database not configured", st) ∧
    submit_score false st gid s = (Outcome.httpError 500 "Database not configured", st) ∧
    seed_games false st = (Outcome.httpError 500 "Database not configured", st) :=
  ⟨rfl, rfl, rfl, rfl, rfl, rfl, rfl⟩

/-- C9: `GET /test` always answers HTTP 200 with an `ok` body; when the
store probe raises, the error text is reported in the `database` field of
the body, truncated to 50 characters, instead of propagating. -/
theorem test_database_always_200 (dbp : Bool) (dbUrl dbName : Option String)
    (lcn : Except String (List String)) (e : String) :
    statusOf (test_database dbp dbUrl dbName lcn) = 200 ∧
    (∃ r, test_database dbp dbUrl dbName lcn = Outcome.ok r) ∧
    (lcn = Except.error e →
      databaseField (test_database true dbUrl dbName lcn)
        = "⚠️  Connected but Error: " ++ e.take 50) := by
  refine ⟨rfl, ⟨_, rfl⟩, ?_⟩
  intro h
  subst h
  rfl

/-- A store-layer error message longer than 50 characters. -/
def longErrMsg : String :=
  "connection refused by store endpoint after several retries in a row"

/-- Witness for C9 with a concrete raising probe whose message exceeds 50
characters. -/
theorem test_database_always_200_witness :
    statusOf (test_database true none none (Except.error longErrMsg)) = 200 ∧
    databaseField (test_database true none none (Except.error longErrMsg))
      = "⚠️  Connected but Error: " ++ longErrMsg.take 50 := by
  have h := test_database_always_200 true none none (Except.error longErrMsg) longErrMsg
  exact ⟨h.1, h.2.2 rfl⟩

/-- C10: `GET /api/games` treats an empty-string `category` query
parameter exactly like an absent one — the filter is empty and every game
is listed. -/
theorem list_games_empty_category (st : DB) :
    list_games true st (some "") = list_games true st none ∧
    (list_games true st (some "")).1 = Outcome.ok (st.game.map serializeD) := by
  constructor
  · rfl
  · show Outcome.ok ((get_documents st.game []).map serializeD)
        = Outcome.ok (st.game.map serializeD)
    rw [show get_documents st.game [] = st.game from
      List.filter_eq_self.mpr (fun a _ => rfl)]

/-- C2 counterexample: the body `{"username": "x"}` violates the `User`
schema of `src/schemas.py` (username shorter than 2 characters), yet
`POST /api/users` validates only against `CreateUserRequest`, answers 200
and inserts the document — the claim's 422 never happens. -/
theorem post_users_accepts_schema_violating_body :
    userSchemaOk "x" none = false ∧
    statusOf (post_users true emptyDB [("username", Value.vStr "x")]).1 = 200 ∧
    (post_users true emptyDB [("username", Value.vStr "x")]).2.user.length = 1 := by
  decide

/-- C2 (amended): `POST /api/users` validates the body only against
`CreateUserRequest` — `username` must be present as a string (else 422),
`avatar_url` may be any string — so every string username of any length
and every string avatar value are accepted with 200, and inserted when
the username is not already present. -/
theorem post_users_type_validation_only (st : DB) (u a : String) :
    statusOf (post_users true st [("username", Value.vStr u)]).1 = 200 ∧
    statusOf (post_users true st
      [("username", Value.vStr u), ("avatar_url", Value.vStr a)]).1 = 200 ∧
    (find_one st.user [("username", Value.vStr u)] = none →
      (post_users true st [("username", Value.vStr u)]).2.user.length
        = st.user.length + 1) ∧
    statusOf (post_users true st []).1 = 422 := by
  refine ⟨?_, ?_, ?_, rfl⟩
  · show statusOf (create_user true st ⟨u, none⟩).1 = 200
    cases hf : find_one st.user [("username", Value.vStr u)] <;>
      simp [create_user, hf, statusOf]
  · show statusOf (create_user true st ⟨u, some a⟩).1 = 200
    cases hf : find_one st.user [("username", Value.vStr u)] <;>
      simp [create_user, hf, statusOf]
  · intro h
    show (create_user true st ⟨u, none⟩).2.user.length = st.user.length + 1
    simp [create_user, h, create_document]

/-- Witness for C2's amended theorem at the empty store. -/
theorem post_users_type_validation_only_witness :
    statusOf (post_users true emptyDB [("username", Value.vStr "ab")]).1 = 200 ∧
    (post_users true emptyDB [("username", Value.vStr "ab")]).2.user.length
      = emptyDB.user.length + 1 := by
  have h := post_users_type_validation_only emptyDB "ab" "not a url"
  exact ⟨h.1, h.2.2.1 (by decide)⟩

/-- C4: `POST /api/leaderboard/{g}` with a negative score answers 400 and
leaves the whole store state unchanged; with a non-negative score it
appends exactly one `{game_id, user_id, username, score}` document (plus
the store-generated `_id`) to `leaderboardentry` and returns its id. -/
theorem submit_score_spec (st : DB) (g : String) (p : SubmitScoreRequest) :
    (p.score < 0 →
      submit_score true st g p = (Outcome.httpError 400 "Score must be non-negative", st)) ∧
    (0 ≤ p.score →
      (submit_score true st g p).1 = Outcome.ok (oidHex st.nextId) ∧
      (submit_score true st g p).2.leaderboardentry
        = st.leaderboardentry ++
          [[("game_id", Value.vStr g), ("user_id", Value.vStr p.user_id),
            ("username", Value.vStr p.username), ("score", Value.vInt p.score),
            ("_id", Value.vOid (oidHex st.nextId))]] ∧
      (submit_score true st g p).2.game = st.game ∧
      (submit_score true st g p).2.user = st.user) := by
  constructor
  · intro h
    simp [submit_score, h]
  · intro h
    have hn : ¬ p.score < 0 := not_lt.mpr h
    simp [submit_score, hn, create_document, setKey]

/-- Witness for C4 at a concrete negative and a concrete non-negative
score. -/
theorem submit_score_spec_witness :
    submit_score true emptyDB "g1" ⟨"u1", "Ann", -1⟩
      = (Outcome.httpError 400 "Score must be non-negative", emptyDB) ∧
    (submit_score true emptyDB "g1" ⟨"u1", "Ann", 42⟩).1 = Outcome.ok (oidHex 0) := by
  have h1 := (submit_score_spec emptyDB "g1" ⟨"u1", "Ann", -1⟩).1 (by decide)
  have h2 := (submit_score_spec emptyDB "g1" ⟨"u1", "Ann", 42⟩).2 (by decide)
  exact ⟨h1, h2.1⟩

/-- C5: `POST /api/users` is idempotent on username.  For any store state
in which no stored user already carries the next fresh identifier (true of
every reachable state, since the store generates fresh ids), two
sequential calls with the same payload return the same response — in
particular the same `_id` — and the second call leaves the store
unchanged, creating no second user document. -/
theorem create_user_idempotent (st : DB) (p : CreateUserRequest)
    (h : ∀ d ∈ st.user, getKey? d "_id" ≠ some (Value.vOid (oidHex st.nextId))) :
    (create_user true ((create_user true st p).2) p).1 = (create_user true st p).1 ∧
    (create_user true ((create_user true st p).2) p).2 = (create_user true st p).2 := by
  cases hf : find_one st.user [("username", Value.vStr p.username)] with
  | some e =>
    have h1 : create_user true st p = (Outcome.ok (serialize_doc (some e)), st) := by
      simp [create_user, hf]
    rw [h1]
    simp [create_user, hf, h1]
  | none =>
    have hnone : find_one st.user [("_id", Value.vOid (oidHex st.nextId))] = none := by
      rw [find_one_eq_none_iff]
      intro d hd
      cases hmf : matchesFilter [("_id", Value.vOid (oidHex st.nextId))] d
      · rfl
      · exact absurd ((matchesFilter_singleton _ _ _).mp hmf) (h d hd)
    have hid : getKey? (setKey (createUserData p) "_id" (Value.vOid (oidHex st.nextId))) "_id"
        = some (Value.vOid (oidHex st.nextId)) := getKey?_setKey_self _ _ _
    have husername : getKey? (setKey (createUserData p) "_id" (Value.vOid (oidHex st.nextId)))
        "username" = some (Value.vStr p.username) := by
      rw [getKey?_setKey_ne _ _ _ _ (by decide)]
      rfl
    have hrefetch : find_one
        (st.user ++ [setKey (createUserData p) "_id" (Value.vOid (oidHex st.nextId))])
        [("_id", Value.vOid (oidHex st.nextId))]
        = some (setKey (createUserData p) "_id" (Value.vOid (oidHex st.nextId))) := by
      rw [find_one_append_of_none _ _ _ hnone]
      simp [find_one, matchesFilter, hid]
    have hfind2 : find_one
        (st.user ++ [setKey (createUserData p) "_id" (Value.vOid (oidHex st.nextId))])
        [("username", Value.vStr p.username)]
        = some (setKey (createUserData p) "_id" (Value.vOid (oidHex st.nextId))) := by
      rw [find_one_append_of_none _ _ _ hf]
      simp [find_one, matchesFilter, husername]
    have h1 : create_user true st p
        = (Outcome.ok (serialize_doc (some
            (setKey (createUserData p) "_id" (Value.vOid (oidHex st.nextId))))),
           ⟨st.game,
            st.user ++ [setKey (createUserData p) "_id" (Value.vOid (oidHex st.nextId))],
            st.leaderboardentry, st.nextId + 1⟩) := by
      simp only [create_user, hf, create_document]
      rw [hrefetch]
      rfl
    rw [h1]
    simp only [create_user, hfind2]
    exact ⟨rfl, rfl⟩

/-- Witness for C5: two identical `POST /api/users` calls starting from
the empty store. -/
theorem create_user_idempotent_witness :
    (create_user true ((create_user true emptyDB ⟨"ann", none⟩).2) ⟨"ann", none⟩).1
      = (create_user true emptyDB ⟨"ann", none⟩).1 ∧
    (create_user true ((create_user true emptyDB ⟨"ann", none⟩).2) ⟨"ann", none⟩).2
      = (create_user true emptyDB ⟨"ann", none⟩).2 :=
  create_user_idempotent emptyDB ⟨"ann", none⟩ (by decide)

/-- C6: `POST /api/seed` on an empty games collection inserts the 4 fixed
sample games and returns their ids, after which a second call inserts
nothing and returns the already-seeded message, leaving exactly 4 game
documents; on a non-empty games collection it inserts nothing and returns
the already-seeded message with the state unchanged. -/
theorem seed_games_idempotent (st : DB) :
    (st.game = [] →
      (seed_games true st).1 = Outcome.ok (SeedBody.inserted
        [oidHex st.nextId, oidHex (st.nextId + 1), oidHex (st.nextId + 2),
         oidHex (st.nextId + 3)]) ∧
      (seed_games true st).2.game.length = 4 ∧
      seed_games true ((seed_games true st).2)
        = (Outcome.ok SeedBody.alreadySeeded, (seed_games true st).2) ∧
      ((seed_games true ((seed_games true st).2)).2).game.length = 4) ∧
    (st.game ≠ [] →
      (seed_games true st).1 = Outcome.ok SeedBody.alreadySeeded ∧
      (seed_games true st).2 = st) := by
  obtain ⟨sg, su, sl, sn⟩ := st
  constructor
  · intro h
    replace h : sg = [] := h
    subst h
    exact ⟨rfl, rfl, rfl, rfl⟩
  · intro h
    replace h : sg ≠ [] := h
    have hl : sg.length > 0 := List.length_pos.mpr h
    exact ⟨by simp [seed_games, hl], by simp [seed_games, hl]⟩

/-- Witness for C6 at the empty store. -/
theorem seed_games_idempotent_witness :
    (seed_games true emptyDB).1
      = Outcome.ok (SeedBody.inserted [oidHex 0, oidHex 1, oidHex 2, oidHex 3]) ∧
    (seed_games true emptyDB).2.game.length = 4 ∧
    ((seed_games true ((seed_games true emptyDB).2)).2).game.length = 4 := by
  have h := (seed_games_idempotent emptyDB).1 rfl
  exact ⟨h.1, h.2.1, h.2.2.2⟩

/-- A stored leaderboard entry for game `"g"` with score 1. -/
def lbDoc : Doc := [("game_id", Value.vStr "g"), ("score", Value.vInt 1)]

/-- A store state holding exactly that one leaderboard entry. -/
def lbDB : DB := ⟨[], [], [lbDoc], 0⟩

/-- C3 counterexample: with one matching entry stored,
`GET /api/leaderboard/g?limit=0` returns 1 entry, because the store's
`limit(0)` means "no limit" — so at N = 0 the response is not "at most N
entries", refuting the claim's "every integer N ≥ 0". -/
theorem get_leaderboard_limit_zero_counterexample :
    outDocs (get_leaderboard true lbDB "g" 0).1 = [serializeD lbDoc] ∧
    (outDocs (get_leaderboard true lbDB "g" 0).1).length = 1 ∧
    ¬ ((outDocs (get_leaderboard true lbDB "g" 0).1).length ≤ 0) := by
  decide

/-- C3 (amended): for every game id `g` and every integer N ≥ 1,
`GET /api/leaderboard/{g}?limit=N` returns at most N entries, each with
`game_id = g`, sorted descending by score.  (At N = 0 the store treats the
limit as "no limit" and every matching entry is returned.)  The
`hasIntScore` hypothesis restricts to states whose stored entries carry
integer scores — the shape every API-written entry has — so that the
embedded sort key is the stored score. -/
theorem get_leaderboard_bounded_sorted (st : DB) (g : String) (N : Int)
    (hN : 1 ≤ N)
    (hs : ∀ d ∈ st.leaderboardentry, hasIntScore d = true) :
    ((outDocs (get_leaderboard true st g N).1).length : Int) ≤ N ∧
    (∀ d ∈ outDocs (get_leaderboard true st g N).1,
      getKey? d "game_id" = some (Value.vStr g)) ∧
    List.Sorted scoreGE (outDocs (get_leaderboard true st g N).1) := by
  have hNne : N ≠ 0 := by omega
  have hout : outDocs (get_leaderboard true st g N).1
      = ((List.insertionSort scoreGE
            (st.leaderboardentry.filter
              (matchesFilter [("game_id", Value.vStr g)]))).take N.natAbs).map
          serializeD := by
    simp [get_leaderboard, outDocs, applyLimit, hNne]
  rw [hout]
  refine ⟨?_, ?_, ?_⟩
  · have h1 : (((List.insertionSort scoreGE
        (st.leaderboardentry.filter
          (matchesFilter [("game_id", Value.vStr g)]))).take N.natAbs).map
        serializeD).length ≤ N.natAbs := by
      simp [List.length_take]
    have h2 : ((N.natAbs : Nat) : Int) = N := Int.natAbs_of_nonneg (by omega)
    omega
  · intro d hd
    rcases List.mem_map.mp hd with ⟨d', hd', rfl⟩
    have hmem : d' ∈ List.insertionSort scoreGE
        (st.leaderboardentry.filter (matchesFilter [("game_id", Value.vStr g)])) :=
      List.take_subset _ _ hd'
    have hmem2 : d' ∈ st.leaderboardentry.filter
        (matchesFilter [("game_id", Value.vStr g)]) :=
      (List.perm_insertionSort scoreGE _).subset hmem
    have hmf : matchesFilter [("game_id", Value.vStr g)] d' = true :=
      List.of_mem_filter hmem2
    rw [getKey?_serializeD_ne d' "game_id" (by decide)]
    exact (matchesFilter_singleton _ _ _).mp hmf
  · have h1 : List.Sorted scoreGE (List.insertionSort scoreGE
        (st.leaderboardentry.filter (matchesFilter [("game_id", Value.vStr g)]))) :=
      List.sorted_insertionSort scoreGE _
    have h2 : List.Sorted scoreGE ((List.insertionSort scoreGE
        (st.leaderboardentry.filter
          (matchesFilter [("game_id", Value.vStr g)]))).take N.natAbs) :=
      List.Pairwise.sublist (List.take_sublist _ _) h1
    exact List.Pairwise.map serializeD
      (fun a b hab => by simpa [scoreGE, scoreOf_serializeD] using hab) h2

/-- A store with two entries for game `"g"` (scores 1 and 2) and one for
another game, used to witness C3's amended theorem. -/
def lbDB2 : DB :=
  ⟨[], [],
   [[("game_id", Value.vStr "g"), ("score", Value.vInt 1)],
    [("game_id", Value.vStr "g"), ("score", Value.vInt 2)],
    [("game_id", Value.vStr "other"), ("score", Value.vInt 9)]], 0⟩

/-- Witness for C3's amended theorem at `limit = 1` on a concrete store. -/
theorem get_leaderboard_bounded_sorted_witness :
    ((outDocs (get_leaderboard true lbDB2 "g" 1).1).length : Int) ≤ 1 ∧
    List.Sorted scoreGE (outDocs (get_leaderboard true lbDB2 "g" 1).1) := by
  have h := get_leaderboard_bounded_sorted lbDB2 "g" 1 (by decide) (by decide)
  exact ⟨h.1, h.2.2⟩
